import Mathlib

/-!
Verification of the meta-assertion core of the `assertor` fluent assertion
library, centred on `src/assertions/testing.rs`.  The `Fact` data model, the
`Subject` wrapper, the `ReturnStrategy` capability and the iterator
assertions live outside the provided sources and are modelled from the
specification; the functions `get_assertion_result`, `facts_are`,
`facts_are_at_least`, `fact_value_for_key`, `fact_keys` and the test helper
`is_same_to` are embedded from the source file.
-/

namespace Assertor

/-- Modelled from the spec: the Fact data model (`crate::base::Fact`), a tagged
variant with three forms: `Value(text)`, `KeyValue(key, value)`, `Splitter`. -/
inductive Fact where
  | Value : String → Fact
  | KeyValue : String → String → Fact
  | Splitter : Fact
deriving DecidableEq

/-- Modelled from the spec: constructor `Fact::new(key, value)`. -/
def Fact.new (key value : String) : Fact := Fact.KeyValue key value

/-- Modelled from the spec: constructor `Fact::new_simple_fact(text)`. -/
def Fact.new_simple_fact (value : String) : Fact := Fact.Value value

/-- Modelled from the spec: constructor `Fact::new_splitter()`. -/
def Fact.new_splitter : Fact := Fact.Splitter

/-- Rust `Debug` escaping of one character inside a string literal. -/
def escape_char (c : Char) : String :=
  if c = '"' then "\\\""
  else if c = '\\' then "\\\\"
  else if c = '\n' then "\\n"
  else String.singleton c

/-- Rust `Debug` rendering of a `String`: quoted and escaped. -/
def debug_str (s : String) : String :=
  "\"" ++ String.join (s.data.map escape_char) ++ "\""

/-- Rust derived `Debug` rendering of one `Fact`. -/
def Fact.debug_fmt : Fact → String
  | Fact.Value v => "Value \x7b value: " ++ debug_str v ++ " \x7d"
  | Fact.KeyValue k v =>
      "KeyValue \x7b key: " ++ debug_str k ++ ", value: " ++ debug_str v ++ " \x7d"
  | Fact.Splitter => "Splitter"

/-- Rust derived `Debug` rendering of a `Vec<Fact>`. -/
def debug_fact_list (facts : List Fact) : String :=
  "[" ++ String.intercalate ", " (facts.map Fact.debug_fmt) ++ "]"

/-- Modelled from the spec: rendering of one `Fact` as a line of text;
`KeyValue` renders as `key: value`, `Value` as the bare text, `Splitter` as a
fixed delimiter line. -/
def Fact.render : Fact → String
  | Fact.Value v => v
  | Fact.KeyValue k v => k ++ ": " ++ v
  | Fact.Splitter => "---"

/-- Modelled from the spec: `crate::base::AssertionResult`, the outcome of one
assertion evaluation: a description of the subject under test plus its owned
ordered sequence of Facts. -/
structure AssertionResult where
  description : Option String
  facts : List Fact
deriving DecidableEq

/-- Modelled from the spec: `AssertionResult::generate_message`, the rendered
failure message: description line, then each Fact line in insertion order. -/
def AssertionResult.generate_message (r : AssertionResult) : String :=
  (r.description.getD "value of") ++ "\n" ++
    String.intercalate "\n" (r.facts.map Fact.render)

/-- Modelled from the spec: builder step `add_simple_fact`, appending a
`Value` fact. -/
def AssertionResult.add_simple_fact (r : AssertionResult) (text : String) :
    AssertionResult :=
  { r with facts := r.facts ++ [Fact.Value text] }

/-- `crate::testing::CheckThatResult`: `Result<(), AssertionResult>`. -/
abbrev CheckThatResult := Except AssertionResult Unit

/-- Modelled from the spec: the two Return Strategies selectable at the entry
point: panic immediately, or hand back a structured result value. -/
inductive ReturnStrategy where
  | panicking
  | valueReturning
deriving DecidableEq

/-- The caller-visible result type bound to each strategy; a test-fatal panic
of the panicking strategy is modelled as `Except.error` carrying the rendered
message. -/
def ReturnStrategy.Res : ReturnStrategy → Type
  | ReturnStrategy.panicking => Except String Unit
  | ReturnStrategy.valueReturning => CheckThatResult

/-- Modelled from the spec: `do_ok`, converting a successful outcome through
the bound Return Strategy. -/
def AssertionResult.do_ok (_r : AssertionResult) :
    (st : ReturnStrategy) → st.Res
  | ReturnStrategy.panicking => Except.ok ()
  | ReturnStrategy.valueReturning => Except.ok ()

/-- Modelled from the spec: `do_fail`, converting a failed outcome through the
bound Return Strategy: panic with the rendered message, or return the
structured result. -/
def AssertionResult.do_fail (r : AssertionResult) :
    (st : ReturnStrategy) → st.Res
  | ReturnStrategy.panicking => Except.error r.generate_message
  | ReturnStrategy.valueReturning => Except.error r

/-- Whether a strategy-bound result signals success. -/
def ReturnStrategy.isSuccess : (st : ReturnStrategy) → st.Res → Bool
  | ReturnStrategy.panicking, Except.ok _ => true
  | ReturnStrategy.panicking, Except.error _ => false
  | ReturnStrategy.valueReturning, Except.ok _ => true
  | ReturnStrategy.valueReturning, Except.error _ => false

/-- Modelled from the spec: `crate::base::Subject`, the wrapper binding the
value under test, an optional textual description and the selected Return
Strategy; the chaining Context is `()` throughout the embedded code, so it is
carried as a `Unit` field. -/
structure Subject (α : Type) where
  actual : α
  description : Option String
  context : Unit
  strategy : ReturnStrategy

/-- Modelled from the spec: `description_or_expr`, falling back to a generic
placeholder when no explicit label was supplied. -/
def Subject.description_or_expr {α : Type} (s : Subject α) : String :=
  s.description.getD "value of"

/-- Modelled from the spec: `new_result`, beginning a fresh outcome tied to
this Subject's description. -/
def Subject.new_result {α : Type} (s : Subject α) : AssertionResult :=
  { description := s.description, facts := [] }

/-- Modelled from the spec: `new_owned_subject`, producing a derived Subject
over a new value while preserving the ResultType strategy. -/
def Subject.new_owned_subject {α β : Type} (s : Subject α) (value : β)
    (description : Option String) (context : Unit) : Subject β :=
  { actual := value, description := description, context := context,
    strategy := s.strategy }

/-- Modelled from the spec: the panicking entry point `assert_that!`,
constructing a Subject bound to the panicking Return Strategy from a value and
its source-expression text. -/
def assert_that {α : Type} (value : α) (expr : String) : Subject α :=
  { actual := value, description := some expr, context := (),
    strategy := ReturnStrategy.panicking }

/-- Modelled from the spec: the value-returning entry point `check_that!`,
constructing a Subject bound to the value-returning Return Strategy. -/
def check_that {α : Type} (value : α) (expr : String) : Subject α :=
  { actual := value, description := some expr, context := (),
    strategy := ReturnStrategy.valueReturning }

/-- The panic message produced by Rust's `expect_err("Because this is
assertion for error message.")` on a successful outcome: the expectation
message followed by `: ` and the `Debug` form of the `Ok` payload `()`. -/
def expect_err_message : String :=
  "Because this is assertion for error message." ++ ": ()"

/-- Embedded from src: `get_assertion_result`, extracting the failed
`AssertionResult` via `expect_err`; the unconditional usage-error panic on a
successful outcome is modelled as the outer `Except.error`. -/
def get_assertion_result (s : Subject CheckThatResult) :
    Except String AssertionResult :=
  match s.actual with
  | Except.error r => Except.ok r
  | Except.ok _ => Except.error expect_err_message

/-- Greedy in-order subsequence check used by the containment assertion:
does the first list occur, in order, inside the second? -/
def contains_at_least_check : List Fact → List Fact → Bool
  | [], _ => true
  | _ :: _, [] => false
  | e :: es, a :: rest =>
      if e = a then contains_at_least_check es rest
      else contains_at_least_check (e :: es) rest

/-- Modelled from the spec: the external iterator assertion
`contains_exactly_in_order` — order-sensitive, exact-length sequence
equality.  On failure it reports a `value of` fact, the unmatched elements of
each side, a `Splitter`, and the canonical expected/actual dump (the shape
exercised by the source file's `facts_are` test). -/
def Subject.contains_exactly_in_order (s : Subject (List Fact))
    (expected : List Fact) : s.strategy.Res :=
  if s.actual = expected then s.new_result.do_ok s.strategy
  else
    (AssertionResult.mk s.description
      ([Fact.KeyValue "value of" s.description_or_expr]
        ++ (let missing := expected.diff s.actual
            if missing.isEmpty then []
            else [Fact.KeyValue ("missing (" ++ toString missing.length ++ ")")
                    (debug_fact_list missing)])
        ++ (let extra := s.actual.diff expected
            if extra.isEmpty then []
            else [Fact.KeyValue ("unexpected (" ++ toString extra.length ++ ")")
                    (debug_fact_list extra)])
        ++ [Fact.Splitter,
            Fact.KeyValue "expected" (debug_fact_list expected),
            Fact.KeyValue "actual" (debug_fact_list s.actual)])).do_fail
      s.strategy

/-- Modelled from the spec: the external iterator assertion
`contains_at_least_in_order` — order-sensitive subsequence containment,
allowing extra unmatched elements. -/
def Subject.contains_at_least_in_order (s : Subject (List Fact))
    (expected : List Fact) : s.strategy.Res :=
  if contains_at_least_check expected s.actual then
    s.new_result.do_ok s.strategy
  else
    (AssertionResult.mk s.description
      [Fact.KeyValue "value of" s.description_or_expr,
       Fact.Splitter,
       Fact.KeyValue "expected to contain at least" (debug_fact_list expected),
       Fact.KeyValue "actual" (debug_fact_list s.actual)]).do_fail s.strategy

/-- The derived Subject over the failed result's Fact sequence, built
identically by `facts_are` and `facts_are_at_least` in the source:
`new_owned_subject(result.facts().iter(),
Some(format!("{}.facts()", self.description_or_expr())), ())`. -/
def Subject.facts_subject (s : Subject CheckThatResult)
    (r : AssertionResult) : Subject (List Fact) :=
  s.new_owned_subject r.facts
    (some (s.description_or_expr ++ ".facts()")) ()

/-- Embedded from src: `facts_are` — derive a Subject over the failed
result's Fact sequence and delegate to `contains_exactly_in_order`. -/
def Subject.facts_are (s : Subject CheckThatResult) (expected : List Fact) :
    Except String s.strategy.Res :=
  match get_assertion_result s with
  | Except.error msg => Except.error msg
  | Except.ok r =>
      Except.ok ((s.facts_subject r).contains_exactly_in_order expected)

/-- Embedded from src: `facts_are_at_least` — derive a Subject over the
failed result's Fact sequence and delegate to
`contains_at_least_in_order`. -/
def Subject.facts_are_at_least (s : Subject CheckThatResult)
    (facts : List Fact) : Except String s.strategy.Res :=
  match get_assertion_result s with
  | Except.error msg => Except.error msg
  | Except.ok r =>
      Except.ok ((s.facts_subject r).contains_at_least_in_order facts)

/-- Embedded from src: `fact_value_for_key` — scan the failed result's facts
in order for the first `KeyValue` fact with the given key and derive a
Subject over its value; when no match exists, `expect` panics with a message
naming the key and the `Debug` form of the rendered outcome. -/
def Subject.fact_value_for_key (s : Subject CheckThatResult) (key : String) :
    Except String (Subject String) :=
  match get_assertion_result s with
  | Except.error msg => Except.error msg
  | Except.ok r =>
      match (r.facts.filterMap fun f =>
        match f with
        | Fact.KeyValue k v => if k = key then some v else none
        | _ => none).head? with
      | some value =>
          Except.ok (s.new_owned_subject value
            (some (s.description_or_expr ++ ".[key=" ++ key ++ "]")) ())
      | none =>
          Except.error ("key `" ++ key ++ "` not found in assertion result.\n"
            ++ debug_str r.generate_message)

/-- Embedded from src: `fact_keys` — collect the set of distinct keys among
`KeyValue` facts (ignoring `Value` and `Splitter`), the `HashSet<&String>`
modelled as a `Finset String`, and derive a Subject over it. -/
def Subject.fact_keys (s : Subject CheckThatResult) :
    Except String (Subject (Finset String)) :=
  match get_assertion_result s with
  | Except.error msg => Except.error msg
  | Except.ok r =>
      Except.ok (s.new_owned_subject
        ((r.facts.filterMap fun f =>
          match f with
          | Fact.KeyValue k _ => some k
          | Fact.Value _ => none
          | Fact.Splitter => none)).toFinset
        (some (s.description_or_expr ++ ".keys()")) ())

/-- Embedded from src (test helper): `is_same_to` — ok with a `same` fact on
equality, fail with a `not same` fact otherwise. -/
def Subject.is_same_to {α : Type} [DecidableEq α] (s : Subject α)
    (expected : α) : s.strategy.Res :=
  if expected = s.actual then
    (s.new_result.add_simple_fact "same").do_ok s.strategy
  else
    (s.new_result.add_simple_fact "not same").do_fail s.strategy

/-- The failed outcome of the source file's `facts_are` test:
`check_that!("actual").is_same_to("expected")`. -/
def failed_outcome : CheckThatResult :=
  (check_that "actual" "\"actual\"").is_same_to "expected"

/-- Whether an operation on a Subject over a `CheckThatResult` (which may
abort with a usage-error panic, the outer `Except.error`) ran without panic
and concluded success through the bound Return Strategy. -/
def Subject.meta_succeeds (s : Subject CheckThatResult) :
    Except String s.strategy.Res → Bool
  | Except.error _ => false
  | Except.ok r => s.strategy.isSuccess r

/-- Substring containment, used to state that a rendered panic message names
a label, a key or a rendered outcome. -/
def str_contains (hay needle : String) : Prop :=
  List.IsInfix needle.data hay.data

instance (hay needle : String) : Decidable (str_contains hay needle) :=
  List.decidableInfix needle.data hay.data

/-- Concrete failed assertion result used to witness the theorems: two facts
share key `a`, key `b` occurs once, plus one `Value` and one `Splitter`. -/
def r_example : AssertionResult :=
  { description := some "x",
    facts := [Fact.Value "v", Fact.KeyValue "a" "1", Fact.Splitter,
              Fact.KeyValue "b" "2", Fact.KeyValue "a" "3"] }

/-- Concrete value-returning Subject over a failed outcome. -/
def s_example : Subject CheckThatResult :=
  check_that (Except.error r_example) "failed"

/-- Concrete value-returning Subject over a successful outcome. -/
def s_ok_example : Subject CheckThatResult :=
  check_that (Except.ok ()) "ok"

/-- The derived Subject that `fact_value_for_key "a"` produces on
`s_example`: value of the first fact keyed `a`, labelled from the parent. -/
def subjv_example : Subject String :=
  s_example.new_owned_subject "1" (some "failed.[key=a]") ()

/-- The derived Subject that `fact_keys` produces on `s_example`. -/
def subjk_example : Subject (Finset String) :=
  s_example.new_owned_subject (["a", "b", "a"].toFinset)
    (some "failed.keys()") ()

theorem isSuccess_do_ok (r : AssertionResult) :
    ∀ st : ReturnStrategy, st.isSuccess (r.do_ok st) = true
  | ReturnStrategy.panicking => rfl
  | ReturnStrategy.valueReturning => rfl

theorem isSuccess_do_fail (r : AssertionResult) :
    ∀ st : ReturnStrategy, st.isSuccess (r.do_fail st) = false
  | ReturnStrategy.panicking => rfl
  | ReturnStrategy.valueReturning => rfl

theorem isSuccess_contains_exactly_in_order (s : Subject (List Fact))
    (expected : List Fact) :
    s.strategy.isSuccess (s.contains_exactly_in_order expected) = true ↔
      s.actual = expected := by
  by_cases h : s.actual = expected
  · simp [Subject.contains_exactly_in_order, h, isSuccess_do_ok]
  · simp [Subject.contains_exactly_in_order, h, isSuccess_do_fail]

theorem contains_at_least_check_iff (es l : List Fact) :
    contains_at_least_check es l = true ↔ List.Sublist es l := by
  induction l generalizing es with
  | nil => cases es <;> simp [contains_at_least_check]
  | cons a rest ih =>
    cases es with
    | nil => simp [contains_at_least_check]
    | cons e es' =>
      by_cases he : e = a
      · subst he
        simp [contains_at_least_check, ih, List.cons_sublist_cons]
      · simp only [contains_at_least_check, if_neg he, ih]
        constructor
        · exact fun h2 => h2.cons a
        · intro h2
          cases h2 with
          | cons _ h3 => exact h3
          | cons₂ _ h3 => exact absurd rfl he

theorem isSuccess_contains_at_least_in_order (s : Subject (List Fact))
    (expected : List Fact) :
    s.strategy.isSuccess (s.contains_at_least_in_order expected) = true ↔
      List.Sublist expected s.actual := by
  by_cases h : contains_at_least_check expected s.actual = true
  · simp [Subject.contains_at_least_in_order, h, isSuccess_do_ok,
      (contains_at_least_check_iff _ _).mp h]
  · have hns : ¬ List.Sublist expected s.actual := fun hs =>
      h ((contains_at_least_check_iff _ _).mpr hs)
    simp [Subject.contains_at_least_in_order, h, isSuccess_do_fail, hns]

/-- C1: for every failed evaluation outcome with Fact sequence `F`,
`facts_are F` succeeds, and `facts_are F'` for any `F'` different from `F`
(different order, content or length) fails: `facts_are` is order-sensitive
and exact-length. -/
theorem facts_are_exact (s : Subject CheckThatResult) (r : AssertionResult)
    (h : s.actual = Except.error r) (F' : List Fact) :
    s.meta_succeeds (s.facts_are r.facts) = true ∧
      (s.meta_succeeds (s.facts_are F') = true ↔ F' = r.facts) := by
  have key : ∀ G : List Fact,
      s.meta_succeeds (s.facts_are G) = true ↔ G = r.facts := by
    intro G
    simp only [Subject.facts_are, get_assertion_result, h,
      Subject.meta_succeeds]
    have h2 := isSuccess_contains_exactly_in_order (s.facts_subject r) G
    have h3 : (s.facts_subject r).actual = G ↔ G = r.facts := by
      rw [show (s.facts_subject r).actual = r.facts from rfl]
      exact eq_comm
    exact h2.trans h3
  exact ⟨(key r.facts).mpr rfl, key F'⟩

/-- Witness for C1 at a concrete failed outcome. -/
theorem facts_are_exact_witness :
    s_example.meta_succeeds (s_example.facts_are r_example.facts) = true ∧
      (s_example.meta_succeeds (s_example.facts_are []) = true ↔
        [] = r_example.facts) :=
  facts_are_exact s_example r_example rfl []

/-- C2: for every failed evaluation outcome with Fact sequence `F`,
`facts_are_at_least prefix` succeeds exactly when `prefix` is an in-order
subsequence of `F` (extra unmatched facts allowed); it fails when any element
of `prefix` is out of order with respect to `F` or absent from `F`. -/
theorem facts_are_at_least_iff_subsequence (s : Subject CheckThatResult)
    (r : AssertionResult) (h : s.actual = Except.error r) (P : List Fact) :
    s.meta_succeeds (s.facts_are_at_least P) = true ↔
      List.Sublist P r.facts := by
  simp only [Subject.facts_are_at_least, get_assertion_result, h,
    Subject.meta_succeeds]
  exact isSuccess_contains_at_least_in_order (s.facts_subject r) P

/-- Witness for C2 at a concrete failed outcome and a strict in-order
subsequence. -/
theorem facts_are_at_least_iff_subsequence_witness :
    s_example.meta_succeeds (s_example.facts_are_at_least
      [Fact.KeyValue "a" "1", Fact.KeyValue "b" "2"]) = true ↔
      List.Sublist [Fact.KeyValue "a" "1", Fact.KeyValue "b" "2"]
        r_example.facts :=
  facts_are_at_least_iff_subsequence s_example r_example rfl
    [Fact.KeyValue "a" "1", Fact.KeyValue "b" "2"]

theorem str_contains_mid (a n b : String) : str_contains (a ++ n ++ b) n := by
  refine ⟨a.data, b.data, ?_⟩
  simp [String.data_append]

theorem head_filterMap_of_find? (k v : String) (l : List Fact)
    (h : l.find? (fun f => match f with
      | Fact.KeyValue k' _ => k' == k
      | _ => false) = some (Fact.KeyValue k v)) :
    (l.filterMap fun f => match f with
      | Fact.KeyValue k' v' => if k' = k then some v' else none
      | _ => none).head? = some v := by
  induction l with
  | nil => simp at h
  | cons a rest ih =>
    cases a with
    | Value t =>
      rw [List.find?_cons_of_neg _ (by simp)] at h
      simpa using ih h
    | Splitter =>
      rw [List.find?_cons_of_neg _ (by simp)] at h
      simpa using ih h
    | KeyValue k' v' =>
      by_cases hk : k' = k
      · subst hk
        rw [List.find?_cons_of_pos _ (by simp)] at h
        simp only [Option.some.injEq, Fact.KeyValue.injEq] at h
        simp [h.2]
      · rw [List.find?_cons_of_neg _ (by simp [hk])] at h
        simp only [List.filterMap_cons]
        rw [if_neg hk]
        exact ih h

/-- C3: for every failed evaluation outcome and every key `k` matched by at
least one `KeyValue` fact, `fact_value_for_key k` derives a Subject over the
value of the first `KeyValue` fact whose key equals `k`, scanning the Fact
sequence in order and ignoring `Value` and `Splitter` facts; on duplicate
keys the first occurrence wins. -/
theorem fact_value_for_key_first (s : Subject CheckThatResult)
    (r : AssertionResult) (h : s.actual = Except.error r) (k v : String)
    (hfind : r.facts.find? (fun f => match f with
      | Fact.KeyValue k' _ => k' == k
      | _ => false) = some (Fact.KeyValue k v)) :
    s.fact_value_for_key k = Except.ok
      { actual := v,
        description := some (s.description_or_expr ++ ".[key=" ++ k ++ "]"),
        context := (), strategy := s.strategy } := by
  simp only [Subject.fact_value_for_key, get_assertion_result, h]
  rw [head_filterMap_of_find? k v r.facts hfind]
  rfl

/-- Witness for C3: key `a` occurs twice in `r_example`; the first value `1`
wins. -/
theorem fact_value_for_key_first_witness :
    s_example.fact_value_for_key "a" = Except.ok
      { actual := "1",
        description := some (s_example.description_or_expr ++ ".[key=" ++ "a"
          ++ "]"),
        context := (), strategy := s_example.strategy } :=
  fact_value_for_key_first s_example r_example rfl "a" "1" rfl

/-- C4: for every failed evaluation outcome with no `KeyValue` fact keyed
`k`, `fact_value_for_key k` panics unconditionally — for every Subject,
whatever Return Strategy it is bound to — with a message naming the missing
key and including the `Debug` form of the rendered outcome; the missing key
is never handed to the Return Strategy as an assertion failure value. -/
theorem fact_value_for_key_missing_panics (s : Subject CheckThatResult)
    (r : AssertionResult) (h : s.actual = Except.error r) (k : String)
    (hmiss : ∀ v, Fact.KeyValue k v ∉ r.facts) :
    s.fact_value_for_key k =
      Except.error ("key `" ++ k ++ "` not found in assertion result.\n"
        ++ debug_str r.generate_message) ∧
      str_contains ("key `" ++ k ++ "` not found in assertion result.\n"
        ++ debug_str r.generate_message) k := by
  have hnil : (r.facts.filterMap fun f => match f with
      | Fact.KeyValue k' v' => if k' = k then some v' else none
      | _ => none) = [] := by
    rw [List.filterMap_eq_nil_iff]
    intro f hf
    cases f with
    | KeyValue k' v' =>
      by_cases hk : k' = k
      · subst hk
        exact absurd hf (hmiss v')
      · simp [hk]
    | Value t => rfl
    | Splitter => rfl
  constructor
  · simp only [Subject.fact_value_for_key, get_assertion_result, h, hnil,
      List.head?_nil]
  · have h2 := str_contains_mid "key `" k
      ("` not found in assertion result.\n" ++ debug_str r.generate_message)
    rwa [← String.append_assoc] at h2

/-- Witness for C4 at a key absent from `r_example`. -/
theorem fact_value_for_key_missing_panics_witness :
    s_example.fact_value_for_key "zz" =
      Except.error ("key `" ++ "zz" ++ "` not found in assertion result.\n"
        ++ debug_str r_example.generate_message) ∧
      str_contains ("key `" ++ "zz" ++ "` not found in assertion result.\n"
        ++ debug_str r_example.generate_message) "zz" :=
  fact_value_for_key_missing_panics s_example r_example rfl "zz"
    (by intro v hv; simp [r_example] at hv)

/-- C5: on a Subject wrapping a successful outcome, each of `facts_are`,
`facts_are_at_least`, `fact_value_for_key` and `fact_keys` panics
unconditionally — not a silent no-op and not routed through the bound Return
Strategy — with the expectation-failure message `Because this is assertion
for error message.`. -/
theorem non_failed_outcome_panics (s : Subject CheckThatResult)
    (h : s.actual = Except.ok ()) (F : List Fact) (k : String) :
    s.facts_are F = Except.error expect_err_message ∧
    s.facts_are_at_least F = Except.error expect_err_message ∧
    s.fact_value_for_key k = Except.error expect_err_message ∧
    s.fact_keys = Except.error expect_err_message ∧
    str_contains expect_err_message
      "Because this is assertion for error message." := by
  refine ⟨?_, ?_, ?_, ?_, ?_⟩
  · simp only [Subject.facts_are, get_assertion_result, h]
  · simp only [Subject.facts_are_at_least, get_assertion_result, h]
  · simp only [Subject.fact_value_for_key, get_assertion_result, h]
  · simp only [Subject.fact_keys, get_assertion_result, h]
  · exact str_contains_mid ""
      "Because this is assertion for error message." ": ()"

/-- Witness for C5 at a concrete successful outcome. -/
theorem non_failed_outcome_panics_witness :
    s_ok_example.facts_are [] = Except.error expect_err_message ∧
    s_ok_example.facts_are_at_least [] = Except.error expect_err_message ∧
    s_ok_example.fact_value_for_key "a" = Except.error expect_err_message ∧
    s_ok_example.fact_keys = Except.error expect_err_message ∧
    str_contains expect_err_message
      "Because this is assertion for error message." :=
  non_failed_outcome_panics s_ok_example rfl [] "a"

/-- C6: for every failed evaluation outcome with Fact sequence `F`,
`fact_keys` derives a Subject over exactly the set of distinct keys of the
`KeyValue` facts of `F` — `Value` and `Splitter` facts are excluded, and as
a `Finset` duplicates collapse with no order carried. -/
theorem fact_keys_distinct_keys (s : Subject CheckThatResult)
    (r : AssertionResult) (h : s.actual = Except.error r) :
    ∃ subj : Subject (Finset String), s.fact_keys = Except.ok subj ∧
      ∀ k : String, k ∈ subj.actual ↔ ∃ v, Fact.KeyValue k v ∈ r.facts := by
  refine ⟨s.new_owned_subject ((r.facts.filterMap fun f => match f with
      | Fact.KeyValue k _ => some k
      | Fact.Value _ => none
      | Fact.Splitter => none)).toFinset
      (some (s.description_or_expr ++ ".keys()")) (), ?_, ?_⟩
  · simp only [Subject.fact_keys, get_assertion_result, h]
  · intro k
    simp only [Subject.new_owned_subject, List.mem_toFinset,
      List.mem_filterMap]
    constructor
    · rintro ⟨f, hf, hsome⟩
      cases f with
      | KeyValue k' v' =>
        simp only [Option.some.injEq] at hsome
        subst hsome
        exact ⟨v', hf⟩
      | Value t => simp at hsome
      | Splitter => simp at hsome
    · rintro ⟨v, hv⟩
      exact ⟨Fact.KeyValue k v, hv, rfl⟩

/-- Witness for C6 at a concrete failed outcome. -/
theorem fact_keys_distinct_keys_witness :
    ∃ subj : Subject (Finset String),
      s_example.fact_keys = Except.ok subj ∧
      ∀ k : String, k ∈ subj.actual ↔
        ∃ v, Fact.KeyValue k v ∈ r_example.facts :=
  fact_keys_distinct_keys s_example r_example rfl

/-- C7: asserting that `"actual"` is-same-to `"expected"` under the
value-returning strategy yields a failed outcome whose Fact sequence, when
checked with `facts_are` against an empty expected sequence, itself fails
with exactly the five Facts of the source file's `facts_are` test, in that
order. -/
theorem meta_assertion_scenario :
    (check_that failed_outcome "failed").facts_are [] =
      Except.ok (Except.error
        { description := some "failed.facts()",
          facts := [Fact.KeyValue "value of" "failed.facts()",
            Fact.KeyValue "unexpected (1)"
              "[Value \x7b value: \"not same\" \x7d]",
            Fact.Splitter,
            Fact.KeyValue "expected" "[]",
            Fact.KeyValue "actual"
              "[Value \x7b value: \"not same\" \x7d]"] }) := by
  rfl

theorem fact_value_for_key_ok_shape (s : Subject CheckThatResult)
    (k : String) (subjv : Subject String)
    (h : s.fact_value_for_key k = Except.ok subjv) :
    ∃ v, subjv = s.new_owned_subject v
      (some (s.description_or_expr ++ ".[key=" ++ k ++ "]")) () := by
  cases hs : s.actual with
  | ok u =>
    simp only [Subject.fact_value_for_key, get_assertion_result, hs] at h
    exact absurd h (by simp)
  | error rr =>
    simp only [Subject.fact_value_for_key, get_assertion_result, hs] at h
    cases hh : (rr.facts.filterMap fun f => match f with
      | Fact.KeyValue k' v' => if k' = k then some v' else none
      | _ => none).head? with
    | none =>
      simp only [hh] at h
      exact absurd h (by simp)
    | some value =>
      simp only [hh, Except.ok.injEq] at h
      exact ⟨value, h.symm⟩

theorem fact_keys_ok_shape (s : Subject CheckThatResult)
    (subjk : Subject (Finset String))
    (h : s.fact_keys = Except.ok subjk) :
    ∃ rr : AssertionResult, s.actual = Except.error rr ∧
      subjk = s.new_owned_subject ((rr.facts.filterMap fun f => match f with
        | Fact.KeyValue key _ => some key
        | Fact.Value _ => none
        | Fact.Splitter => none)).toFinset
        (some (s.description_or_expr ++ ".keys()")) () := by
  cases hs : s.actual with
  | ok u =>
    simp only [Subject.fact_keys, get_assertion_result, hs] at h
    exact absurd h (by simp)
  | error rr =>
    simp only [Subject.fact_keys, get_assertion_result, hs,
      Except.ok.injEq] at h
    exact ⟨rr, rfl, h.symm⟩

/-- C8: the Return Strategy bound at the entry point propagates unchanged
through every derivation: `new_owned_subject` (hence the Subject that
`facts_are` and `facts_are_at_least` assert on, built by `facts_subject`)
and the derived Subjects produced by `fact_value_for_key` and `fact_keys`
all carry the parent Subject's strategy; it is never re-specified
mid-chain. -/
theorem strategy_propagates (s : Subject CheckThatResult)
    (r : AssertionResult) (β : Type) (v : β) (d : Option String)
    (k : String) (subjv : Subject String)
    (subjk : Subject (Finset String)) :
    (s.new_owned_subject v d ()).strategy = s.strategy ∧
    (s.facts_subject r).strategy = s.strategy ∧
    (s.fact_value_for_key k = Except.ok subjv →
      subjv.strategy = s.strategy) ∧
    (s.fact_keys = Except.ok subjk → subjk.strategy = s.strategy) := by
  refine ⟨rfl, rfl, ?_, ?_⟩
  · intro hv
    obtain ⟨value, hsubj⟩ := fact_value_for_key_ok_shape s k subjv hv
    rw [hsubj]
    rfl
  · intro hk
    obtain ⟨rr, _, hsubj⟩ := fact_keys_ok_shape s subjk hk
    rw [hsubj]
    rfl

/-- Witness for C8 at a concrete failed outcome, discharging both derivation
hypotheses by evaluation. -/
theorem strategy_propagates_witness :
    (s_example.new_owned_subject (0 : Nat) none ()).strategy
        = s_example.strategy ∧
      (s_example.facts_subject r_example).strategy = s_example.strategy ∧
      subjv_example.strategy = s_example.strategy ∧
      subjk_example.strategy = s_example.strategy := by
  have h := strategy_propagates s_example r_example Nat 0 none "a"
    subjv_example subjk_example
  exact ⟨h.1, h.2.1, h.2.2.1 rfl, h.2.2.2 rfl⟩

/-- C9: for every value `v` and label `L`, asserting `v` is-same-to `v`
under the panicking strategy never aborts, and asserting that a different
value is-same-to `v` aborts with a rendered message containing the
subject's label `L`. -/
theorem panicking_is_same_to (α : Type) [DecidableEq α] (v w : α)
    (L : String) (hne : w ≠ v) :
    (assert_that v L).is_same_to v = Except.ok () ∧
    ∃ msg : String, (assert_that v L).is_same_to w = Except.error msg ∧
      str_contains msg L := by
  refine ⟨?_, ?_⟩
  · show (if v = v then
        ((assert_that v L).new_result.add_simple_fact "same").do_ok
          (assert_that v L).strategy
      else
        ((assert_that v L).new_result.add_simple_fact "not same").do_fail
          (assert_that v L).strategy) = Except.ok ()
    rw [if_pos rfl]
    rfl
  · refine ⟨AssertionResult.generate_message
      { description := some L, facts := [Fact.Value "not same"] }, ?_, ?_⟩
    · show (if w = v then
          ((assert_that v L).new_result.add_simple_fact "same").do_ok
            (assert_that v L).strategy
        else
          ((assert_that v L).new_result.add_simple_fact "not same").do_fail
            (assert_that v L).strategy) = Except.error
            (AssertionResult.generate_message
              { description := some L, facts := [Fact.Value "not same"] })
      rw [if_neg hne]
      rfl
    · rw [show AssertionResult.generate_message
          { description := some L, facts := [Fact.Value "not same"] } =
          L ++ "\n" ++ "not same" from rfl]
      refine ⟨[], "\n".data ++ "not same".data, ?_⟩
      simp [String.data_append, List.append_assoc]

/-- Witness for C9 at concrete values and label. -/
theorem panicking_is_same_to_witness :
    (assert_that (1 : Nat) "lbl").is_same_to 1 = Except.ok () ∧
    ∃ msg : String,
      (assert_that (1 : Nat) "lbl").is_same_to 2 = Except.error msg ∧
      str_contains msg "lbl" :=
  panicking_is_same_to Nat 1 2 "lbl" (by decide)

/-- C10: each derivation labels its derived Subject deterministically from
the parent's `description_or_expr` `D`: the facts Subject asserted on by
`facts_are` and `facts_are_at_least` is labelled `D.facts()`,
`fact_value_for_key k` labels its Subject `D.[key=k]`, and `fact_keys`
labels its Subject `D.keys()`. -/
theorem derived_subject_labels (s : Subject CheckThatResult)
    (r : AssertionResult) (k : String) (subjv : Subject String)
    (subjk : Subject (Finset String)) :
    (s.facts_subject r).description =
      some (s.description_or_expr ++ ".facts()") ∧
    (s.fact_value_for_key k = Except.ok subjv →
      subjv.description =
        some (s.description_or_expr ++ ".[key=" ++ k ++ "]")) ∧
    (s.fact_keys = Except.ok subjk →
      subjk.description = some (s.description_or_expr ++ ".keys()")) := by
  refine ⟨rfl, ?_, ?_⟩
  · intro hv
    obtain ⟨value, hsubj⟩ := fact_value_for_key_ok_shape s k subjv hv
    rw [hsubj]
    rfl
  · intro hk
    obtain ⟨rr, _, hsubj⟩ := fact_keys_ok_shape s subjk hk
    rw [hsubj]
    rfl

/-- Witness for C10 at a concrete failed outcome, discharging both
derivation hypotheses by evaluation. -/
theorem derived_subject_labels_witness :
    (s_example.facts_subject r_example).description =
      some (s_example.description_or_expr ++ ".facts()") ∧
    subjv_example.description =
      some (s_example.description_or_expr ++ ".[key=" ++ "a" ++ "]") ∧
    subjk_example.description =
      some (s_example.description_or_expr ++ ".keys()") := by
  have h := derived_subject_labels s_example r_example "a"
    subjv_example subjk_example
  exact ⟨h.1, h.2.1 rfl, h.2.2 rfl⟩

end Assertor
